import Mathlib

/-!
Shallow embedding of the agent-orchestration core of the pharmacy-ai-platform
backend (src/backend/app/agents/base.py and src/backend/app/agents/orchestrator.py),
together with theorems settling the frozen claims about it.

Python's dynamically-typed values are embedded as the inductive `PyVal`;
dictionaries are association lists carrying Python's insertion-order and
overwrite semantics; a raised exception is an `Except.error` carrying the
exception's `str()`.  External collaborators (the OpenAI client wrapped by
`call_llm`, the registered agents, the structlog sink used by `log_action`,
the clock, and the uuid4 generator) are supplied through an `Env` record,
so the theorems quantify over every behaviour those collaborators can show.
-/

namespace PharmacyAI

/-- Python values as they flow through the agent layer: JSON scalars and
containers, plus `AgentOutput` objects (which the workflow engine stores
inside its results log, and which `json.dumps` cannot serialize). -/
inductive PyVal where
  | vnone
  | vbool (b : Bool)
  | vint (n : Int)
  | vstr (s : String)
  | vlist (xs : List PyVal)
  | vdict (entries : List (String × PyVal))
  | vout (success : Bool) (data : List (String × PyVal))
      (error : Option String) (error_code : Option String)
      (metadata : List (String × PyVal)) (escalation_needed : Bool)

/-- First-match lookup in an insertion-ordered dict. -/
def dictLookup (d : List (String × PyVal)) (k : String) : Option PyVal :=
  match d with
  | [] => none
  | (k1, v) :: rest => if k1 = k then some v else dictLookup rest k

/-- `d[k] = v` on a Python dict: overwrite in place if the key exists,
append otherwise (preserving insertion order). -/
def dictInsert (d : List (String × PyVal)) (k : String) (v : PyVal) :
    List (String × PyVal) :=
  match d with
  | [] => [(k, v)]
  | (k1, v1) :: rest =>
    if k1 = k then (k1, v) :: rest else (k1, v1) :: dictInsert rest k v

/-- `{**a, **b}` / `a.update(b)`: apply every entry of `b` to `a` in order,
so `b` wins on key collision. -/
def dictMerge (a b : List (String × PyVal)) : List (String × PyVal) :=
  b.foldl (fun acc kv => dictInsert acc kv.1 kv.2) a

/-- Python truthiness (`if x:`): None, False, 0, "", [] and \x7b\x7d are falsy;
every other value reachable here is truthy. -/
def truthy : PyVal → Bool
  | .vnone => false
  | .vbool b => b
  | .vint n => n != 0
  | .vstr s => s ≠ ""
  | .vlist xs => !xs.isEmpty
  | .vdict d => !d.isEmpty
  | .vout .. => true

/-- Python `str()` for the scalar values the orchestrator interpolates into
f-strings.  Container reprs are abbreviated: every code path below that
reaches `pyStr` on a container has already raised. -/
def pyStr : PyVal → String
  | .vnone => "None"
  | .vbool true => "True"
  | .vbool false => "False"
  | .vint n => toString n
  | .vstr s => s
  | .vlist _ => "<list>"
  | .vdict _ => "<dict>"
  | .vout .. => "<AgentOutput>"

/-- A raised Python exception, reduced to its `str()` (which is what the
orchestrator's handlers put into `error=str(e)`).  The string may be empty:
`str(Exception())` is `""`. -/
structure PyErr where
  msg : String
deriving DecidableEq

/-- base.py `AgentInput`.  The `timestamp` field (a wall-clock datetime
default) is elided: no claim mentions it. -/
structure AgentInput where
  user_id : Option String := none
  conversation_id : Option String := none
  session_id : Option String := none
  message_id : String
  payload : List (String × PyVal) := []
  metadata : List (String × PyVal) := []

/-- base.py `AgentOutput`.  The response-side `message_id`, `timestamp` and
float `confidence` fields are elided: no claim mentions them. -/
structure AgentOutput where
  success : Bool := true
  data : List (String × PyVal) := []
  error : Option String := none
  error_code : Option String := none
  metadata : List (String × PyVal) := []
  escalation_needed : Bool := false

/-- Embed an `AgentOutput` object as a `PyVal` (the workflow results log
stores the objects themselves inside `data`). -/
def AgentOutput.toVal (o : AgentOutput) : PyVal :=
  .vout o.success o.data o.error o.error_code o.metadata o.escalation_needed

/-! ## Orchestrator: routing (orchestrator.py, `_analyze_and_route`) -/

/-- Outcome of `BaseAgent.call_llm` for the routing call, as seen by
`_analyze_and_route`.  `call_llm` itself never raises (it catches every
exception and returns a `success=False` dict), so the three cases are:
the call failed; it succeeded but `json.loads(content)` raises
`json.JSONDecodeError`; it succeeded and the content parsed to `v`. -/
inductive LLMResult where
  | failed (err : String)
  | okUnparseable (content : String)
  | okParsed (v : PyVal)

/-- The static `routing_map` literal of `_analyze_and_route`. -/
def routing_map : List (String × String) :=
  [("search_medicine", "medicine_search"),
   ("upload_prescription", "prescription_validation"),
   ("check_order", "customer_support"),
   ("create_order", "order_processing"),
   ("payment", "payment"),
   ("track_delivery", "delivery"),
   ("general_question", "customer_support"),
   ("safety_check", "compliance_safety")]

/-- `routing_map.get(intent, "customer_support")` for a string intent. -/
def routingTarget (s : String) : String :=
  (((routing_map.find? (fun p => p.1 = s)).map (fun p => p.2)).getD "customer_support")

/-- `routing_map.get(intent, "customer_support")` on the raw payload value:
dict lookup with an unhashable key (list/dict/pydantic model) raises
`TypeError`; any other non-string key is simply absent from the
string-keyed table and yields the default. -/
def intentTarget : PyVal → Except PyErr String
  | .vstr s => .ok (routingTarget s)
  | .vlist _ => .error ⟨"unhashable type: list"⟩
  | .vdict _ => .error ⟨"unhashable type: dict"⟩
  | .vout .. => .error ⟨"unhashable type: AgentOutput"⟩
  | _ => .ok "customer_support"

/-- The decision dict returned on the explicit-intent branch. -/
def mkExplicitDecision (intentVal : PyVal) (target : String) : PyVal :=
  .vdict [("target_agent", .vstr target),
          ("reasoning", .vstr ("Explicit intent: " ++ pyStr intentVal)),
          ("context_to_pass", .vdict []),
          ("priority", .vstr "normal")]

/-- The decision dict returned when LLM routing fails or its content does
not parse. -/
def fallbackDecision : PyVal :=
  .vdict [("target_agent", .vstr "customer_support"),
          ("reasoning", .vstr "Fallback routing due to analysis failure"),
          ("context_to_pass", .vdict []),
          ("priority", .vstr "normal")]

/-- `OrchestratorAgent._analyze_and_route`.  `payload.get("intent")` yields
`None` when absent; `if intent:` is Python truthiness. -/
def analyze_and_route (llm : LLMResult) (input_data : AgentInput) :
    Except PyErr PyVal :=
  let intent := (dictLookup input_data.payload "intent").getD .vnone
  if truthy intent then
    match intentTarget intent with
    | .error e => .error e
    | .ok target => .ok (mkExplicitDecision intent target)
  else
    match llm with
    | .okParsed v => .ok v
    | _ => .ok fallbackDecision

/-! ## Orchestrator: dispatch (`OrchestratorAgent.process`) -/

/-- A registered agent's `process` coroutine: it may return an output or
raise. -/
def Agent : Type := AgentInput → Except PyErr AgentOutput

/-- The collaborators `process` touches: the routing LLM call, the agent
registry, the audit sink behind `log_action` (structlog may raise), the
latency measured from the wall clock, the `datetime.utcnow().isoformat()`
annotation string, and the uuid4 supply used by the workflow engine for
fresh `message_id`s (successive draws are numbered). -/
structure Env where
  llm : LLMResult
  registry : String → Option Agent
  log_sink : AgentInput → AgentOutput → Except PyErr Unit
  latencyMs : Int
  nowIso : String
  uuid : Nat → String

/-- `rd.get(key, default)`: a method of dict; on any non-dict routing
decision (the parsed model content may be any JSON value) attribute access
raises `AttributeError`. -/
def pyGet (rd : PyVal) (k : String) (dflt : PyVal) : Except PyErr PyVal :=
  match rd with
  | .vdict d => .ok ((dictLookup d k).getD dflt)
  | _ => .error ⟨"object has no attribute get"⟩

/-- `{**payload, **context}` requires `context` to be a mapping. -/
def asMapping : PyVal → Except PyErr (List (String × PyVal))
  | .vdict d => .ok d
  | _ => .error ⟨"argument after ** must be a mapping"⟩

/-- `self.agent_registry.get(target_agent_type)`: dict lookup raises on
unhashable keys, returns `None` for hashable keys that are not registered
strings. -/
def registryGet (reg : String → Option Agent) : PyVal → Except PyErr (Option Agent)
  | .vstr s => .ok (reg s)
  | .vlist _ => .error ⟨"unhashable type: list"⟩
  | .vdict _ => .error ⟨"unhashable type: dict"⟩
  | .vout .. => .error ⟨"unhashable type: AgentOutput"⟩
  | _ => .ok none

/-- The `AGENT_NOT_FOUND` response literal of `process`. -/
def mkAgentNotFound (target rd : PyVal) : AgentOutput :=
  { success := false
    error := some ("Agent " ++ pyStr target ++ " not found")
    error_code := some "AGENT_NOT_FOUND"
    data := [("routing_decision", rd)] }

/-- The two metadata entries `process` adds to the dispatched agent's
result. -/
def annotate (o : AgentOutput) (rd : PyVal) (nowIso : String) : AgentOutput :=
  { o with metadata :=
      dictInsert (dictInsert o.metadata "routing" rd) "orchestrated_at" (.vstr nowIso) }

/-- The `ORCHESTRATION_ERROR` response literal of `process`'s except block. -/
def mkOrchErr (latency : Int) (e : PyErr) : AgentOutput :=
  { success := false
    error := some e.msg
    error_code := some "ORCHESTRATION_ERROR"
    metadata := [("latency_ms", .vint latency)] }

/-- The state of the caller's request object after
`input_data.payload = merged_payload` (line 76 of orchestrator.py): only
the `payload` field is reassigned. -/
def mutatedWith (i : AgentInput) (d : List (String × PyVal)) : AgentInput :=
  { i with payload := dictMerge i.payload d }

/-- The body of `process`'s try block.  Results and raised exceptions both
carry the current state of the (mutated) `input_data` object, since
`process` reassigns `input_data.payload` before dispatch and the caller
holds a reference to that object. -/
def processBody (env : Env) (input0 : AgentInput) :
    Except (PyErr × AgentInput) (AgentOutput × AgentInput) :=
  match analyze_and_route env.llm input0 with
  | .error e => .error (e, input0)
  | .ok rd =>
    match pyGet rd "target_agent" (.vstr "customer_support") with
    | .error e => .error (e, input0)
    | .ok target =>
      match pyGet rd "context_to_pass" (.vdict []) with
      | .error e => .error (e, input0)
      | .ok ctx =>
        match asMapping ctx with
        | .error e => .error (e, input0)
        | .ok ctxD =>
          match registryGet env.registry target with
          | .error e => .error (e, mutatedWith input0 ctxD)
          | .ok none => .ok (mkAgentNotFound target rd, mutatedWith input0 ctxD)
          | .ok (some agent) =>
            match agent (mutatedWith input0 ctxD) with
            | .error e => .error (e, mutatedWith input0 ctxD)
            | .ok result =>
              match env.log_sink (mutatedWith input0 ctxD) (annotate result rd env.nowIso) with
              | .error e => .error (e, mutatedWith input0 ctxD)
              | .ok _ => .ok (annotate result rd env.nowIso, mutatedWith input0 ctxD)

/-- `OrchestratorAgent.process`: the try body with its except handler.
The pair is (returned response, final state of the caller's request
object). -/
def process (env : Env) (input0 : AgentInput) : AgentOutput × AgentInput :=
  match processBody env input0 with
  | .ok r => r
  | .error (e, st) => (mkOrchErr env.latencyMs e, st)

/-! ## Tool execution (base.py, `BaseAgent.execute_tool`) -/

/-- Minimal `json.dumps` string escaping (backslash and quote; control
characters do not occur in the values the claims touch). -/
def jsonEscape (s : String) : String :=
  String.join (s.data.map (fun c =>
    if c = '\\' then "\\\\" else if c = '"' then "\\\"" else String.singleton c))

mutual
/-- `json.dumps` with its default separators; custom objects such as
`AgentOutput` raise `TypeError`. -/
def jsonDumps : PyVal → Except PyErr String
  | .vnone => .ok "null"
  | .vbool true => .ok "true"
  | .vbool false => .ok "false"
  | .vint n => .ok (toString n)
  | .vstr s => .ok ("\"" ++ jsonEscape s ++ "\"")
  | .vlist xs =>
    match jsonDumpsSeq xs with
    | .error e => .error e
    | .ok parts => .ok ("[" ++ String.intercalate ", " parts ++ "]")
  | .vdict d =>
    match jsonDumpsEntries d with
    | .error e => .error e
    | .ok parts => .ok ("\x7b" ++ String.intercalate ", " parts ++ "\x7d")
  | .vout .. => .error ⟨"Object of type AgentOutput is not JSON serializable"⟩

def jsonDumpsSeq : List PyVal → Except PyErr (List String)
  | [] => .ok []
  | x :: rest =>
    match jsonDumps x with
    | .error e => .error e
    | .ok s =>
      match jsonDumpsSeq rest with
      | .error e => .error e
      | .ok ss => .ok (s :: ss)

def jsonDumpsEntries : List (String × PyVal) → Except PyErr (List String)
  | [] => .ok []
  | (k, v) :: rest =>
    match jsonDumps v with
    | .error e => .error e
    | .ok s =>
      match jsonDumpsEntries rest with
      | .error e => .error e
      | .ok ss => .ok (("\"" ++ jsonEscape k ++ "\": " ++ s) :: ss)
end

/-- `json.dumps` of a one-entry object with a string value never fails;
this is the shape of `execute_tool`'s error payloads. -/
def jsonStrObj (k v : String) : String :=
  "\x7b" ++ ("\"" ++ jsonEscape k ++ "\": " ++ ("\"" ++ jsonEscape v ++ "\"")) ++ "\x7d"

/-- One tool of an agent's tool set: its name and its handler, which is
called with the deserialized arguments as keyword arguments and may
raise. -/
structure ToolModel where
  name : String
  handler : List (String × PyVal) → Except PyErr PyVal

/-- A model-supplied tool call: the tool name and the outcome of
`json.loads` on the serialized argument string — the argument string
itself is opaque here, so it is represented by how `json.loads` treats it:
either it raises `json.JSONDecodeError` with some message, or it yields a
value. -/
inductive ArgsString where
  | malformed (msg : String)
  | parsed (v : PyVal)

structure ToolCall where
  name : String
  arguments : ArgsString

/-- `tool.execute(**arguments)`: keyword-unpacking a non-mapping raises
`TypeError` (inside the try block); otherwise the handler runs. -/
def callWithKwargs (t : ToolModel) (args : PyVal) : Except PyErr PyVal :=
  match args with
  | .vdict d => t.handler d
  | _ => .error ⟨"argument after ** must be a mapping"⟩

/-- `BaseAgent.execute_tool`.  Note the source calls
`json.loads(tool_call.function.arguments)` before its try block: a
malformed argument string raises out of `execute_tool`. -/
def execute_tool (tools : List ToolModel) (tc : ToolCall) : Except PyErr String :=
  match tc.arguments with
  | .malformed m => .error ⟨m⟩
  | .parsed args =>
    match tools.find? (fun t => t.name = tc.name) with
    | none => .ok (jsonStrObj "error" ("Tool " ++ tc.name ++ " not found"))
    | some tool =>
      match callWithKwargs tool args with
      | .error e => .ok (jsonStrObj "error" e.msg)
      | .ok result =>
        match jsonDumps (.vdict [("result", result)]) with
        | .ok s => .ok s
        | .error e => .ok (jsonStrObj "error" e.msg)

/-! ## Workflow engine (`OrchestratorAgent.execute_workflow`) -/

/-- One step dict of a workflow: `step["agent"]`, `step.get("payload", \x7b\x7d)`
and the truthiness of `step.get("continue_on_error")`. -/
structure Step where
  agent : String
  payload : List (String × PyVal) := []
  continue_on_error : Bool := false

/-- Encoding of the ordered results log `[\x7b"agent": ..., "result": ...\x7d, ...]`
as the Python value stored under `data["results"]`. -/
def encodeResults (rs : List (String × AgentOutput)) : PyVal :=
  .vlist (rs.map (fun r => .vdict [("agent", .vstr r.1), ("result", r.2.toVal)]))

/-- The `WORKFLOW_AGENT_MISSING` response literal: note its `data` is the
pydantic default (empty) — the accumulated results log is not attached. -/
def mkWorkflowAgentMissing (agent_type : String) : AgentOutput :=
  { success := false
    error := some ("Agent " ++ agent_type ++ " not found in workflow")
    error_code := some "WORKFLOW_AGENT_MISSING" }

/-- The `WORKFLOW_FAILED` response literal, carrying the partial log. -/
def mkWorkflowFailed (agent_type : String) (results : List (String × AgentOutput)) :
    AgentOutput :=
  { success := false
    error := some ("Workflow failed at step " ++ agent_type)
    error_code := some "WORKFLOW_FAILED"
    data := [("results", encodeResults results)] }

/-- The response on completing every step. -/
def mkWorkflowSuccess (name : String) (results : List (String × AgentOutput))
    (context : List (String × PyVal)) : AgentOutput :=
  { success := true
    data := [("workflow", .vstr name),
             ("results", encodeResults results),
             ("final_context", .vdict context)] }

/-- The fresh `AgentInput` built for one step: only `user_id`,
`conversation_id` and the merged payload come from the initial request;
`session_id` and `metadata` are the pydantic defaults and `message_id` is
a fresh uuid4 draw (draw number `ctr`). -/
def mkStepInput (env : Env) (input0 : AgentInput) (ctr : Nat)
    (context : List (String × PyVal)) (s : Step) : AgentInput :=
  { user_id := input0.user_id
    conversation_id := input0.conversation_id
    session_id := none
    message_id := env.uuid ctr
    payload := dictMerge context s.payload
    metadata := [] }

/-- The `for step in steps:` loop of `execute_workflow`, with the
accumulated context, the ordered results log and the uuid draw counter
threaded through.  A step agent that raises propagates (the loop has no
handler). -/
def runSteps (env : Env) (name : String) (input0 : AgentInput) :
    Nat → List (String × PyVal) → List (String × AgentOutput) → List Step →
    Except PyErr AgentOutput
  | _, context, acc, [] => .ok (mkWorkflowSuccess name acc context)
  | ctr, context, acc, s :: rest =>
    match env.registry s.agent with
    | none => .ok (mkWorkflowAgentMissing s.agent)
    | some agent =>
      match agent (mkStepInput env input0 ctr context s) with
      | .error e => .error e
      | .ok result =>
        let acc2 := acc ++ [(s.agent, result)]
        if !result.success && !s.continue_on_error then
          .ok (mkWorkflowFailed s.agent acc2)
        else
          runSteps env name input0 (ctr + 1) (dictMerge context result.data) acc2 rest

/-- `OrchestratorAgent.execute_workflow`: the context is seeded from a
copy of the initial request's payload. -/
def execute_workflow (env : Env) (name : String) (input0 : AgentInput)
    (steps : List Step) : Except PyErr AgentOutput :=
  runSteps env name input0 0 input0.payload [] steps

/-! ## A completed workflow run, and its recorded trace -/

/-- Last-write-wins fold of the recorded step outputs' `data` over a
starting context: the value of the shared context after those steps. -/
def ctxAfter (ctx : List (String × PyVal)) (tr : List (AgentInput × AgentOutput)) :
    List (String × PyVal) :=
  tr.foldl (fun c p => dictMerge c p.2.data) ctx

/-- The ordered results log of a run: one `(agent_id, result)` entry per
step, in declared order. -/
def runLog (steps : List Step) (tr : List (AgentInput × AgentOutput)) :
    List (String × AgentOutput) :=
  List.zipWith (fun s p => (s.agent, p.2)) steps tr

/-- A non-aborting workflow run: every step's agent is registered, its
call returns without raising, and no step triggers the fail-fast abort.
`tr` records, per step, the freshly constructed `AgentInput` handed to the
agent and the output the agent returned. -/
inductive RunOk (env : Env) (i0 : AgentInput) :
    Nat → List (String × PyVal) → List Step → List (AgentInput × AgentOutput) → Prop
  | nil (ctr : Nat) (ctx : List (String × PyVal)) : RunOk env i0 ctr ctx [] []
  | cons (ctr : Nat) (ctx : List (String × PyVal)) (s : Step) (rest : List Step)
      (agent : Agent) (r : AgentOutput) (tr : List (AgentInput × AgentOutput))
      (hreg : env.registry s.agent = some agent)
      (hrun : agent (mkStepInput env i0 ctr ctx s) = .ok r)
      (hok : r.success = true ∨ s.continue_on_error = true)
      (htail : RunOk env i0 (ctr + 1) (dictMerge ctx r.data) rest tr) :
      RunOk env i0 ctr ctx (s :: rest) ((mkStepInput env i0 ctr ctx s, r) :: tr)

/-! ## Concrete fixtures used by the witnesses and counterexamples -/

/-- A registered agent that returns a fixed output. -/
def stubAgent (o : AgentOutput) : Agent := fun _ => .ok o

/-- A registered agent whose `process` raises. -/
def raisingAgent (e : PyErr) : Agent := fun _ => .error e

/-- A concrete uuid4 supply: draw `n` is the string of `n` copies of
`u` (all draws pairwise distinct). -/
def baseUuid (n : Nat) : String := String.mk (List.replicate n 'u')

/-- Baseline environment: no working model connection, empty registry,
a healthy audit sink, 5 ms of measured latency. -/
def baseEnv : Env :=
  { llm := .failed "connection error"
    registry := fun _ => none
    log_sink := fun _ _ => .ok ()
    latencyMs := 5
    nowIso := "2026-01-01T00:00:00"
    uuid := baseUuid }

/-- C1 fixture: the model "succeeds" but its content parses to the JSON
number 7, so `routing_decision.get(...)` raises `AttributeError`. -/
def c1Env : Env := { baseEnv with llm := .okParsed (.vint 7) }

def c1Input : AgentInput := { message_id := "m-c1" }

/-- C2 fixture: a request whose payload carries the intent field with the
empty string as value. -/
def c2Input : AgentInput := { message_id := "m-c2", payload := [("intent", .vstr "")] }

/-- C2 fixture: a parsed model decision that routes to medicine_search. -/
def c2LlmDecision : PyVal := .vdict [("target_agent", .vstr "medicine_search")]

def c2IntentInput : AgentInput :=
  { message_id := "m-c2b", payload := [("intent", .vstr "search_medicine")] }

def c3Input : AgentInput := { message_id := "m-c3", payload := [("message", .vstr "hi")] }

/-- C4/C5/C10 fixtures: a two-step workflow. -/
def c4AgentA : Agent := stubAgent { data := [("x", .vint 1)] }

def c4Env : Env := { baseEnv with registry := fun s => if s = "A" then some c4AgentA else none }

def c4Input : AgentInput := { message_id := "m-c4" }

def c4FailOut : AgentOutput :=
  { success := false, error := some "validation failed", error_code := some "VALIDATION_FAILED" }

def c4FailEnv : Env :=
  { baseEnv with registry := fun s =>
      if s = "A" then some (stubAgent c4FailOut)
      else if s = "B" then some (stubAgent {}) else none }

def c5rA : AgentOutput := { data := [("x", .vint 1)] }

def c5rB : AgentOutput := { data := [("y", .vint 2)] }

def c5Env : Env :=
  { baseEnv with registry := fun s =>
      if s = "A" then some (stubAgent c5rA)
      else if s = "B" then some (stubAgent c5rB) else none }

def c5Input : AgentInput := { message_id := "m-c5" }

def c5StepA : Step := { agent := "A" }

def c5StepB : Step := { agent := "B" }

def c5Steps : List Step := [c5StepA, c5StepB]

/-- The trace of the c5 run: step A sees the seed context, step B sees
A's contribution merged in. -/
def c5Trace : List (AgentInput × AgentOutput) :=
  [(mkStepInput c5Env c5Input 0 c5Input.payload c5StepA, c5rA),
   (mkStepInput c5Env c5Input 1 (dictMerge c5Input.payload c5rA.data) c5StepB, c5rB)]

/-- C6 fixture: the routed agent raises an exception whose `str()` is
empty (as `raise Exception()` does). -/
def c6Env : Env :=
  { baseEnv with registry := fun s =>
      if s = "customer_support" then some (raisingAgent ⟨""⟩) else none }

def c6Input : AgentInput := { message_id := "m-c6" }

/-- C7 fixture: one registered tool. -/
def c7Tool : ToolModel := { name := "get_medicine_info", handler := fun _ => .ok (.vstr "info") }

/-- C8 fixture: dispatch succeeds but the audit sink raises. -/
def c8Result : AgentOutput := { data := [("response", .vstr "ok")] }

def c8Env : Env :=
  { baseEnv with
      registry := fun s => if s = "customer_support" then some (stubAgent c8Result) else none
      log_sink := fun _ _ => .error ⟨"structlog sink unavailable"⟩ }

def c8Input : AgentInput := { message_id := "m-c8" }

/-- C9 fixture: a parsed routing decision whose context_to_pass adds a
key to the caller's payload. -/
def c9Decision : PyVal :=
  .vdict [("target_agent", .vstr "customer_support"),
          ("context_to_pass", .vdict [("b", .vint 2)])]

def c9Env : Env :=
  { baseEnv with llm := .okParsed c9Decision
                 registry := fun s => if s = "customer_support" then some (stubAgent {}) else none }

def c9Input : AgentInput := { message_id := "m-c9", payload := [("a", .vint 1)] }

/-! ## Dict lemmas -/

theorem dictMerge_nil (a : List (String × PyVal)) : dictMerge a [] = a := rfl

theorem dictMerge_cons (a : List (String × PyVal)) (k : String) (v : PyVal)
    (tl : List (String × PyVal)) :
    dictMerge a ((k, v) :: tl) = dictMerge (dictInsert a k v) tl := rfl

theorem mem_of_dictLookup_some (d : List (String × PyVal)) (k : String) (v : PyVal)
    (h : dictLookup d k = some v) : k ∈ d.map Prod.fst := by
  induction d with
  | nil => simp [dictLookup] at h
  | cons hd tl ih =>
    obtain ⟨k1, v1⟩ := hd
    by_cases h1 : k1 = k
    · simp [h1]
    · simp only [dictLookup, h1, if_false] at h
      simp [ih h]

theorem dictLookup_dictInsert_self (d : List (String × PyVal)) (k : String) (v : PyVal) :
    dictLookup (dictInsert d k v) k = some v := by
  induction d with
  | nil => simp [dictInsert, dictLookup]
  | cons hd tl ih =>
    obtain ⟨k1, v1⟩ := hd
    by_cases h : k1 = k
    · simp [dictInsert, dictLookup, h]
    · simp [dictInsert, dictLookup, h, ih]

theorem dictLookup_dictInsert_ne (d : List (String × PyVal)) (k k2 : String) (v : PyVal)
    (h : k ≠ k2) : dictLookup (dictInsert d k v) k2 = dictLookup d k2 := by
  induction d with
  | nil => simp [dictInsert, dictLookup, h]
  | cons hd tl ih =>
    obtain ⟨k1, v1⟩ := hd
    by_cases h1 : k1 = k
    · subst h1
      simp [dictInsert, dictLookup, h]
    · simp [dictInsert, dictLookup, h1, ih]

/-- Keys absent from `b` read through a merge to `a`. -/
theorem dictLookup_dictMerge_of_none (a b : List (String × PyVal)) (k : String)
    (h : dictLookup b k = none) : dictLookup (dictMerge a b) k = dictLookup a k := by
  induction b generalizing a with
  | nil => simp [dictMerge]
  | cons hd tl ih =>
    obtain ⟨k1, v1⟩ := hd
    simp only [dictLookup] at h
    by_cases h1 : k1 = k
    · simp [h1] at h
    · simp only [h1, if_false] at h
      rw [dictMerge_cons, ih _ h, dictLookup_dictInsert_ne _ _ _ _ h1]

/-- On a duplicate-free right operand, the merge takes `b`'s binding:
the decision context / the step's response data wins on key collision. -/
theorem dictLookup_dictMerge_of_some (a b : List (String × PyVal)) (k : String) (v : PyVal)
    (hnd : (b.map Prod.fst).Nodup) (h : dictLookup b k = some v) :
    dictLookup (dictMerge a b) k = some v := by
  induction b generalizing a with
  | nil => simp [dictLookup] at h
  | cons hd tl ih =>
    obtain ⟨k1, v1⟩ := hd
    simp only [List.map_cons, List.nodup_cons] at hnd
    simp only [dictLookup] at h
    by_cases h1 : k1 = k
    · subst h1
      simp only [if_pos rfl] at h
      cases h
      rw [dictMerge_cons]
      have htl : dictLookup tl k1 = none := by
        cases hc : dictLookup tl k1 with
        | none => rfl
        | some w => exact absurd (mem_of_dictLookup_some _ _ _ hc) hnd.1
      rw [dictLookup_dictMerge_of_none _ _ _ htl, dictLookup_dictInsert_self]
    · simp only [h1, if_false] at h
      rw [dictMerge_cons]
      exact ih _ hnd.2 h

/-- `json.dumps` of a one-entry object with a string value is total and
produces `jsonStrObj`: the error payloads `execute_tool` builds are the
real serializer's output. -/
theorem jsonDumps_strObj (k v : String) :
    jsonDumps (.vdict [(k, .vstr v)]) = .ok (jsonStrObj k v) := by
  simp [jsonDumps, jsonDumpsEntries, jsonStrObj, String.intercalate,
    String.intercalate.go]

/-! ## Shape of one dispatch -/

/-- Every run of the try body either raises before the payload
reassignment (state unchanged), or reassigns the payload to a merge and
then yields one of: a raised exception, the AGENT_NOT_FOUND literal, or
the dispatched agent's annotated result. -/
theorem processBody_shape (env : Env) (i : AgentInput) :
    (∃ e, processBody env i = .error (e, i)) ∨
    (∃ d, (∃ e, processBody env i = .error (e, mutatedWith i d)) ∨
          (∃ t rd, processBody env i = .ok (mkAgentNotFound t rd, mutatedWith i d)) ∨
          (∃ r rd, processBody env i = .ok (annotate r rd env.nowIso, mutatedWith i d))) := by
  cases h1 : analyze_and_route env.llm i with
  | error e => exact .inl ⟨e, by simp [processBody, h1]⟩
  | ok rd =>
    cases h2 : pyGet rd "target_agent" (.vstr "customer_support") with
    | error e => exact .inl ⟨e, by simp [processBody, h1, h2]⟩
    | ok target =>
      cases h3 : pyGet rd "context_to_pass" (.vdict []) with
      | error e => exact .inl ⟨e, by simp [processBody, h1, h2, h3]⟩
      | ok ctx =>
        cases h4 : asMapping ctx with
        | error e => exact .inl ⟨e, by simp [processBody, h1, h2, h3, h4]⟩
        | ok ctxD =>
          refine .inr ⟨ctxD, ?_⟩
          cases h5 : registryGet env.registry target with
          | error e => exact .inl ⟨e, by simp [processBody, h1, h2, h3, h4, h5]⟩
          | ok oagent =>
            cases oagent with
            | none =>
              exact .inr (.inl ⟨target, rd, by simp [processBody, h1, h2, h3, h4, h5]⟩)
            | some agent =>
              cases h6 : agent (mutatedWith i ctxD) with
              | error e => exact .inl ⟨e, by simp [processBody, h1, h2, h3, h4, h5, h6]⟩
              | ok result =>
                cases h7 : env.log_sink (mutatedWith i ctxD) (annotate result rd env.nowIso) with
                | error e =>
                  exact .inl ⟨e, by simp [processBody, h1, h2, h3, h4, h5, h6, h7]⟩
                | ok u =>
                  exact .inr (.inr ⟨result, rd, by simp [processBody, h1, h2, h3, h4, h5, h6, h7]⟩)

/-! ## Workflow run lemmas -/

/-- A non-aborting run completes: the loop returns the success response
whose log extends the accumulator in order and whose final context is the
last-write-wins fold of the recorded outputs. -/
theorem runSteps_of_runOk (env : Env) (name : String) (i0 : AgentInput)
    (steps : List Step) (tr : List (AgentInput × AgentOutput))
    (ctr : Nat) (ctx : List (String × PyVal)) (acc : List (String × AgentOutput))
    (h : RunOk env i0 ctr ctx steps tr) :
    runSteps env name i0 ctr ctx acc steps
      = .ok (mkWorkflowSuccess name (acc ++ runLog steps tr) (ctxAfter ctx tr)) := by
  induction h generalizing acc with
  | nil ctr ctx => simp [runSteps, runLog, ctxAfter]
  | cons ctr ctx s rest agent r tr hreg hrun hok htail ih =>
    have hcond : (!r.success && !s.continue_on_error) = false := by
      rcases hok with h1 | h1 <;> simp [h1]
    simp only [runSteps, hreg, hrun, hcond, Bool.false_eq_true, if_false]
    rw [ih (acc ++ [(s.agent, r)])]
    simp [runLog, ctxAfter, List.append_assoc]

/-- The trace and the step list of a run have equal length. -/
theorem runOk_length (env : Env) (i0 : AgentInput)
    (steps : List Step) (tr : List (AgentInput × AgentOutput))
    (ctr : Nat) (ctx : List (String × PyVal))
    (h : RunOk env i0 ctr ctx steps tr) : tr.length = steps.length := by
  induction h with
  | nil ctr ctx => rfl
  | cons ctr ctx s rest agent r tr hreg hrun hok htail ih => simp [ih]

/-- The input recorded for step `k` of a run is the freshly constructed
request over the context accumulated from the seed plus the outputs of
steps `0..k-1`, in order. -/
theorem runOk_inputs (env : Env) (i0 : AgentInput)
    (steps : List Step) (tr : List (AgentInput × AgentOutput))
    (ctr : Nat) (ctx : List (String × PyVal))
    (h : RunOk env i0 ctr ctx steps tr) :
    ∀ k (hk : k < tr.length) (hk2 : k < steps.length),
      (tr.get ⟨k, hk⟩).1
        = mkStepInput env i0 (ctr + k) (ctxAfter ctx (tr.take k)) (steps.get ⟨k, hk2⟩) := by
  induction h with
  | nil ctr ctx => intro k hk hk2; exact absurd hk (by simp)
  | cons ctr ctx s rest agent r tr hreg hrun hok htail ih =>
    intro k hk hk2
    match k with
    | 0 => simp [ctxAfter]
    | (k0 + 1) =>
      have hk0 : k0 < tr.length := by
        simpa using Nat.lt_of_succ_lt_succ hk
      have hk20 : k0 < rest.length := by
        simpa using Nat.lt_of_succ_lt_succ hk2
      have := ih k0 hk0 hk20
      simp only [List.get_cons_succ]
      rw [this]
      have harith : ctr + 1 + k0 = ctr + (k0 + 1) := by omega
      rw [harith]
      rfl

/-! ## Uuid supply facts for the concrete fixtures -/

theorem baseUuid_injective : Function.Injective baseUuid := by
  intro a b hab
  have h2 : (List.replicate a 'u').length = (List.replicate b 'u').length :=
    congrArg (fun s => s.data.length) hab
  simpa using h2

theorem baseUuid_ne_mc5 : ∀ n, baseUuid n ≠ c5Input.message_id := by
  intro n h
  have h2 : (List.replicate n 'u').length = 4 :=
    congrArg (fun s => s.data.length) h
  simp at h2
  subst h2
  exact absurd h (by decide)

/-! ## The claims -/

/-- C1: `Orchestrator.process` is total — it is a function into
`AgentOutput × AgentInput` for every environment (explicit intent or not,
model connection working or not) and every request, so it never raises —
and whenever any exception is raised inside the try body (routing, payload
merging, dispatch, annotation or audit logging), `process` returns the
converted response: `success=false`, `error_code="ORCHESTRATION_ERROR"`,
`error=str(e)`, with the elapsed latency in its metadata. -/
theorem process_converts_exceptions (env : Env) (input0 : AgentInput)
    (e : PyErr) (st : AgentInput)
    (h : processBody env input0 = .error (e, st)) :
    process env input0 = (mkOrchErr env.latencyMs e, st) ∧
    (process env input0).1.success = false ∧
    (process env input0).1.error_code = some "ORCHESTRATION_ERROR" ∧
    (process env input0).1.error = some e.msg ∧
    dictLookup (process env input0).1.metadata "latency_ms"
      = some (.vint env.latencyMs) := by
  refine ⟨?_, ?_, ?_, ?_, ?_⟩ <;> simp [process, h, mkOrchErr, dictLookup]

/-- C1 witness: with a model that "succeeds" but whose content parses to
the JSON number 7, `routing_decision.get` raises `AttributeError` and the
caller receives the converted ORCHESTRATION_ERROR response. -/
theorem process_converts_exceptions_witness :
    process c1Env c1Input = (mkOrchErr 5 ⟨"object has no attribute get"⟩, c1Input) ∧
    (process c1Env c1Input).1.success = false ∧
    (process c1Env c1Input).1.error_code = some "ORCHESTRATION_ERROR" ∧
    (process c1Env c1Input).1.error = some "object has no attribute get" ∧
    dictLookup (process c1Env c1Input).1.metadata "latency_ms" = some (.vint 5) :=
  process_converts_exceptions c1Env c1Input ⟨"object has no attribute get"⟩ c1Input rfl

/-- C2 counterexample: the payload contains the intent field with value
`""`. Because the source guards with Python truthiness (`if intent:`),
this present-but-falsy intent takes the LLM path: under one model
behaviour routing resolves to `medicine_search`, under another to
`customer_support` — so with an intent field present the decision is
neither the static table's image (unknown intents were claimed to map to
`customer_support`) nor independent of model availability. -/
theorem empty_intent_routing_depends_on_model :
    dictLookup c2Input.payload "intent" = some (.vstr "") ∧
    analyze_and_route (.okParsed c2LlmDecision) c2Input = .ok c2LlmDecision ∧
    pyGet c2LlmDecision "target_agent" (.vstr "customer_support")
      = .ok (.vstr "medicine_search") ∧
    analyze_and_route (.failed "connection error") c2Input = .ok fallbackDecision ∧
    pyGet fallbackDecision "target_agent" (.vstr "customer_support")
      = .ok (.vstr "customer_support") ∧
    PyVal.vstr "medicine_search" ≠ PyVal.vstr "customer_support" := by
  refine ⟨rfl, rfl, rfl, rfl, rfl, ?_⟩
  intro hc
  injection hc with hc2
  exact absurd hc2 (by decide)

/-- C2 amended: whenever the request payload carries a NON-EMPTY string
intent, routing is deterministic and bypasses the model: for every model
behaviour `llm` the decision is the explicit-intent dict whose
target_agent is the static table's image of the intent, with intents
outside the table resolving to customer_support (`routingTarget`'s
default); the listed table entries hold. -/
theorem explicit_intent_static_routing (llm : LLMResult) (i : AgentInput) (s : String)
    (hs : dictLookup i.payload "intent" = some (.vstr s)) (hne : s ≠ "") :
    analyze_and_route llm i = .ok (mkExplicitDecision (.vstr s) (routingTarget s)) ∧
    pyGet (mkExplicitDecision (.vstr s) (routingTarget s)) "target_agent"
        (.vstr "customer_support") = .ok (.vstr (routingTarget s)) ∧
    routingTarget "search_medicine" = "medicine_search" ∧
    routingTarget "upload_prescription" = "prescription_validation" ∧
    routingTarget "create_order" = "order_processing" ∧
    routingTarget "browse_catalog" = "customer_support" := by
  refine ⟨?_, rfl, rfl, rfl, rfl, rfl⟩
  simp [analyze_and_route, hs, truthy, hne, intentTarget]

/-- C2 amendment witness at intent `"search_medicine"` with a failed
model connection. -/
theorem explicit_intent_static_routing_witness :
    analyze_and_route baseEnv.llm c2IntentInput
      = .ok (mkExplicitDecision (.vstr "search_medicine") (routingTarget "search_medicine")) ∧
    pyGet (mkExplicitDecision (.vstr "search_medicine") (routingTarget "search_medicine"))
        "target_agent" (.vstr "customer_support")
      = .ok (.vstr (routingTarget "search_medicine")) ∧
    routingTarget "search_medicine" = "medicine_search" ∧
    routingTarget "upload_prescription" = "prescription_validation" ∧
    routingTarget "create_order" = "order_processing" ∧
    routingTarget "browse_catalog" = "customer_support" :=
  explicit_intent_static_routing baseEnv.llm c2IntentInput "search_medicine" rfl
    (by decide)

/-- C3: on a request without a truthy intent, if the routing model call
fails or its content does not parse as JSON, `_analyze_and_route` raises
nothing and returns exactly the fallback decision: target_agent
customer_support, priority normal, with the fallback-noting reasoning
string. -/
theorem routing_fallback_on_llm_failure (llm : LLMResult) (i : AgentInput)
    (hIntent : truthy ((dictLookup i.payload "intent").getD .vnone) = false)
    (hFail : (∃ err, llm = .failed err) ∨ (∃ c, llm = .okUnparseable c)) :
    analyze_and_route llm i = .ok fallbackDecision ∧
    pyGet fallbackDecision "target_agent" (.vstr "")
      = .ok (.vstr "customer_support") ∧
    pyGet fallbackDecision "priority" (.vstr "") = .ok (.vstr "normal") ∧
    pyGet fallbackDecision "reasoning" (.vstr "")
      = .ok (.vstr "Fallback routing due to analysis failure") := by
  refine ⟨?_, rfl, rfl, rfl⟩
  rcases hFail with ⟨err, rfl⟩ | ⟨c, rfl⟩ <;> simp [analyze_and_route, hIntent]

/-- C3 witness: a free-text request with a failed model connection. -/
theorem routing_fallback_on_llm_failure_witness :
    analyze_and_route (.failed "timeout") c3Input = .ok fallbackDecision ∧
    pyGet fallbackDecision "target_agent" (.vstr "")
      = .ok (.vstr "customer_support") ∧
    pyGet fallbackDecision "priority" (.vstr "") = .ok (.vstr "normal") ∧
    pyGet fallbackDecision "reasoning" (.vstr "")
      = .ok (.vstr "Fallback routing due to analysis failure") :=
  routing_fallback_on_llm_failure (.failed "timeout") c3Input rfl
    (Or.inl ⟨"timeout", rfl⟩)

/-- C4 counterexample: in the workflow `[A, B]`, step A succeeds and
contributes data, then step B's agent is absent from the registry.  The
run aborts with `WORKFLOW_AGENT_MISSING` as claimed — but the returned
response's `data` is EMPTY: the partial results log accumulated so far
(A's entry) is NOT carried, refuting "in both fatal cases ... the response
carries the partial results log accumulated so far". -/
theorem agent_missing_abort_drops_partial_results :
    execute_workflow c4Env "order_flow" c4Input
        [{ agent := "A" }, { agent := "B" }]
      = .ok (mkWorkflowAgentMissing "B") ∧
    (mkWorkflowAgentMissing "B").data = [] ∧
    (mkWorkflowAgentMissing "B").error_code = some "WORKFLOW_AGENT_MISSING" ∧
    c4AgentA (mkStepInput c4Env c4Input 0 c4Input.payload { agent := "A" })
      = .ok { data := [("x", .vint 1)] } :=
  ⟨rfl, rfl, rfl, rfl⟩

/-- C4 amended: both fatal conditions abort immediately — the remaining
steps never run (the result does not depend on `rest`) — but only
`WORKFLOW_FAILED` carries the partial results log accumulated so far
(including the failing step's entry); `WORKFLOW_AGENT_MISSING` returns
with empty `data`, dropping the log. -/
theorem workflow_fatal_aborts (env : Env) (name : String) (i0 : AgentInput) :
    (∀ ctr context acc s rest, env.registry s.agent = none →
        runSteps env name i0 ctr context acc (s :: rest)
          = .ok (mkWorkflowAgentMissing s.agent)) ∧
    (∀ ctr context acc s rest agent r, env.registry s.agent = some agent →
        agent (mkStepInput env i0 ctr context s) = .ok r →
        r.success = false → s.continue_on_error = false →
        runSteps env name i0 ctr context acc (s :: rest)
          = .ok (mkWorkflowFailed s.agent (acc ++ [(s.agent, r)]))) ∧
    (∀ a, (mkWorkflowAgentMissing a).data = []) ∧
    (∀ a rs, (mkWorkflowFailed a rs).data = [("results", encodeResults rs)]) := by
  refine ⟨?_, ?_, fun a => rfl, fun a rs => rfl⟩
  · intro ctr context acc s rest h
    simp [runSteps, h]
  · intro ctr context acc s rest agent r h1 h2 h3 h4
    simp [runSteps, h1, h2, h3, h4]

/-- C4 amendment witness: the spec's scenario — steps `[A, B]` where A
fails without `continue_on_error` — aborts with `WORKFLOW_FAILED`, B never
executes, and the log carries exactly A's entry. -/
theorem workflow_fatal_aborts_witness :
    runSteps c4FailEnv "order_flow" c4Input 0 c4Input.payload []
        [{ agent := "A" }, { agent := "B" }]
      = .ok (mkWorkflowFailed "A" [("A", c4FailOut)]) ∧
    c4FailOut.success = false :=
  ⟨(workflow_fatal_aborts c4FailEnv "order_flow" c4Input).2.1 0 c4Input.payload []
      { agent := "A" } [{ agent := "B" }] (stubAgent c4FailOut) c4FailOut
      rfl rfl rfl rfl,
   rfl⟩

/-- C5: on a non-aborting run, the workflow seeds its context from the
initial payload, executes the steps strictly in declared order, and
returns `success=true` with the workflow name, the full ordered results
log and `final_context` equal to the last-write-wins fold of the executed
steps' response data.  Moreover the request handed to step `k` carries
exactly the seed context merged (in order, response data winning) with the
data of steps `0..k-1` and then the step's own payload overrides — so a
step's contribution is visible to every later step's payload and, the
payload being a function of the strictly earlier outputs only, to no
earlier step. -/
theorem workflow_context_ordering (env : Env) (name : String) (i0 : AgentInput)
    (steps : List Step) (tr : List (AgentInput × AgentOutput))
    (h : RunOk env i0 0 i0.payload steps tr) :
    execute_workflow env name i0 steps
      = .ok (mkWorkflowSuccess name (runLog steps tr) (ctxAfter i0.payload tr)) ∧
    (∀ k (hk : k < tr.length) (hk2 : k < steps.length),
      (tr.get ⟨k, hk⟩).1.payload
        = dictMerge (ctxAfter i0.payload (tr.take k)) (steps.get ⟨k, hk2⟩).payload) := by
  constructor
  · have h1 := runSteps_of_runOk env name i0 steps tr 0 i0.payload [] h
    simpa [execute_workflow] using h1
  · intro k hk hk2
    have h2 := runOk_inputs env i0 steps tr 0 i0.payload h k hk hk2
    have h3 := congrArg AgentInput.payload h2
    simpa [mkStepInput] using h3

/-- C5 witness: the spec's scenario — A's response data is `x=1` and B's
request payload carries `x=1`; the run completes with the ordered log and
the merged final context. -/
theorem workflow_context_ordering_witness :
    execute_workflow c5Env "chained" c5Input c5Steps
      = .ok (mkWorkflowSuccess "chained" (runLog c5Steps c5Trace)
          (ctxAfter c5Input.payload c5Trace)) ∧
    runLog c5Steps c5Trace = [("A", c5rA), ("B", c5rB)] ∧
    ctxAfter c5Input.payload c5Trace = [("x", .vint 1), ("y", .vint 2)] ∧
    dictLookup (c5Trace.get ⟨1, by decide⟩).1.payload "x" = some (.vint 1) := by
  have hrun : RunOk c5Env c5Input 0 c5Input.payload c5Steps c5Trace := by
    refine RunOk.cons 0 c5Input.payload c5StepA [c5StepB] (stubAgent c5rA) c5rA _
      rfl rfl (Or.inl rfl) ?_
    refine RunOk.cons 1 (dictMerge c5Input.payload c5rA.data) c5StepB [] (stubAgent c5rB)
      c5rB _ rfl rfl (Or.inl rfl) ?_
    exact RunOk.nil 2 _
  exact ⟨(workflow_context_ordering c5Env "chained" c5Input c5Steps c5Trace hrun).1,
    rfl, rfl, rfl⟩

/-- C10: each workflow step request is freshly constructed from only the
initial request's `user_id`, `conversation_id` and the merged
context/override payload; `session_id` and `metadata` are the pydantic
defaults (`None`, empty) rather than the initial request's, and each step
request's `message_id` is a fresh uuid4 draw, so (with uuid4 modelled as a
collision-free supply, fresh with respect to the initial id) no two step
requests, nor the initial request, share a `message_id`. -/
theorem workflow_step_request_freshness (env : Env) (i0 : AgentInput)
    (steps : List Step) (tr : List (AgentInput × AgentOutput))
    (h : RunOk env i0 0 i0.payload steps tr)
    (hinj : Function.Injective env.uuid)
    (hfresh : ∀ n, env.uuid n ≠ i0.message_id) :
    (∀ k (hk : k < tr.length) (hk2 : k < steps.length),
       (tr.get ⟨k, hk⟩).1
         = mkStepInput env i0 k (ctxAfter i0.payload (tr.take k)) (steps.get ⟨k, hk2⟩) ∧
       (tr.get ⟨k, hk⟩).1.user_id = i0.user_id ∧
       (tr.get ⟨k, hk⟩).1.conversation_id = i0.conversation_id ∧
       (tr.get ⟨k, hk⟩).1.session_id = none ∧
       (tr.get ⟨k, hk⟩).1.metadata = [] ∧
       (tr.get ⟨k, hk⟩).1.message_id = env.uuid k ∧
       (tr.get ⟨k, hk⟩).1.message_id ≠ i0.message_id) ∧
    (∀ k l (hk : k < tr.length) (hl : l < tr.length), k ≠ l →
       (tr.get ⟨k, hk⟩).1.message_id ≠ (tr.get ⟨l, hl⟩).1.message_id) := by
  have hlen := runOk_length env i0 steps tr 0 i0.payload h
  have hin := runOk_inputs env i0 steps tr 0 i0.payload h
  constructor
  · intro k hk hk2
    have h2 := hin k hk hk2
    rw [Nat.zero_add] at h2
    refine ⟨h2, ?_, ?_, ?_, ?_, ?_, ?_⟩ <;> rw [h2]
    · rfl
    · rfl
    · rfl
    · rfl
    · rfl
    · exact hfresh k
  · intro k l hk hl hkl
    have hk2 : k < steps.length := hlen ▸ hk
    have hl2 : l < steps.length := hlen ▸ hl
    have h2 := hin k hk hk2
    have h3 := hin l hl hl2
    rw [Nat.zero_add] at h2 h3
    rw [h2, h3]
    intro hc
    exact hkl (hinj hc)

/-- C10 witness: in the concrete two-step run, both step requests drop the
session and metadata, draw distinct fresh ids, and differ from the initial
request's id. -/
theorem workflow_step_request_freshness_witness :
    (c5Trace.get ⟨0, by decide⟩).1.session_id = none ∧
    (c5Trace.get ⟨0, by decide⟩).1.metadata = [] ∧
    (c5Trace.get ⟨1, by decide⟩).1.message_id = baseUuid 1 ∧
    (c5Trace.get ⟨0, by decide⟩).1.message_id ≠ (c5Trace.get ⟨1, by decide⟩).1.message_id ∧
    (c5Trace.get ⟨1, by decide⟩).1.message_id ≠ c5Input.message_id := by
  have hrun : RunOk c5Env c5Input 0 c5Input.payload c5Steps c5Trace := by
    refine RunOk.cons 0 c5Input.payload c5StepA [c5StepB] (stubAgent c5rA) c5rA _
      rfl rfl (Or.inl rfl) ?_
    refine RunOk.cons 1 (dictMerge c5Input.payload c5rA.data) c5StepB [] (stubAgent c5rB)
      c5rB _ rfl rfl (Or.inl rfl) ?_
    exact RunOk.nil 2 _
  have h := workflow_step_request_freshness c5Env c5Input c5Steps c5Trace hrun
    baseUuid_injective baseUuid_ne_mc5
  refine ⟨(h.1 0 (by decide) (by decide)).2.2.2.1,
    (h.1 0 (by decide) (by decide)).2.2.2.2.1,
    (h.1 1 (by decide) (by decide)).2.2.2.2.2.1,
    h.2 0 1 (by decide) (by decide) (by decide),
    (h.1 1 (by decide) (by decide)).2.2.2.2.2.2⟩

/-- The AGENT_NOT_FOUND error string is never empty. -/
theorem agentNotFound_error_ne_empty (t : PyVal) :
    "Agent " ++ pyStr t ++ " not found" ≠ "" := by
  intro hc
  have h2 := congrArg String.data hc
  simp [String.data_append] at h2

/-- C6 counterexample: the dispatched agent raises an exception whose
`str()` is empty (as `raise Exception()` yields).  `process` converts it
to `success=false` with `error=some ""` — an EMPTY error string — so the
claimed invariant "every success=false response carries a non-empty error
string" fails on the catch-all path for an arbitrary caught exception. -/
theorem orchestration_error_can_carry_empty_error :
    (process c6Env c6Input).1.success = false ∧
    (process c6Env c6Input).1.error = some "" ∧
    (process c6Env c6Input).1.error_code = some "ORCHESTRATION_ERROR" :=
  ⟨rfl, rfl, rfl⟩

/-- C6 amended: every `success=false` response out of `process` carries a
stable error code and a present error on the paths `process` itself
constructs — the `AGENT_NOT_FOUND` error string is non-empty, while the
catch-all `ORCHESTRATION_ERROR` response's error is `str(e)` of the caught
exception, which is present but may be the empty string; the remaining
failure responses are the dispatched agent's own, forwarded with only
metadata annotation (error and error_code unchanged from the agent). -/
theorem process_failure_envelope (env : Env) (i : AgentInput)
    (h : (process env i).1.success = false) :
    (∃ e : PyErr, (process env i).1 = mkOrchErr env.latencyMs e ∧
       (process env i).1.error = some e.msg ∧
       (process env i).1.error_code = some "ORCHESTRATION_ERROR") ∨
    (∃ t rd, (process env i).1 = mkAgentNotFound t rd ∧
       (process env i).1.error = some ("Agent " ++ pyStr t ++ " not found") ∧
       "Agent " ++ pyStr t ++ " not found" ≠ "" ∧
       (process env i).1.error_code = some "AGENT_NOT_FOUND") ∨
    (∃ r rd, r.success = false ∧ (process env i).1 = annotate r rd env.nowIso ∧
       (process env i).1.error = r.error ∧
       (process env i).1.error_code = r.error_code) := by
  rcases processBody_shape env i with ⟨e, hb⟩ | ⟨d, ⟨e, hb⟩ | ⟨t, rd, hb⟩ | ⟨r, rd, hb⟩⟩
  · exact .inl ⟨e, by simp [process, hb], by simp [process, hb, mkOrchErr],
      by simp [process, hb, mkOrchErr]⟩
  · exact .inl ⟨e, by simp [process, hb], by simp [process, hb, mkOrchErr],
      by simp [process, hb, mkOrchErr]⟩
  · exact .inr (.inl ⟨t, rd, by simp [process, hb],
      by simp [process, hb, mkAgentNotFound], agentNotFound_error_ne_empty t,
      by simp [process, hb, mkAgentNotFound]⟩)
  · refine .inr (.inr ⟨r, rd, ?_, by simp [process, hb],
      by simp [process, hb, annotate], by simp [process, hb, annotate]⟩)
    have h2 : (process env i).1 = annotate r rd env.nowIso := by simp [process, hb]
    rw [h2] at h
    simpa [annotate] using h

/-- C6 amendment witness at the empty-exception fixture: the catch-all
disjunct holds there. -/
theorem process_failure_envelope_witness :
    (∃ e : PyErr, (process c6Env c6Input).1 = mkOrchErr c6Env.latencyMs e ∧
       (process c6Env c6Input).1.error = some e.msg ∧
       (process c6Env c6Input).1.error_code = some "ORCHESTRATION_ERROR") ∨
    (∃ t rd, (process c6Env c6Input).1 = mkAgentNotFound t rd ∧
       (process c6Env c6Input).1.error = some ("Agent " ++ pyStr t ++ " not found") ∧
       "Agent " ++ pyStr t ++ " not found" ≠ "" ∧
       (process c6Env c6Input).1.error_code = some "AGENT_NOT_FOUND") ∨
    (∃ r rd, r.success = false ∧
       (process c6Env c6Input).1 = annotate r rd c6Env.nowIso ∧
       (process c6Env c6Input).1.error = r.error ∧
       (process c6Env c6Input).1.error_code = r.error_code) :=
  process_failure_envelope c6Env c6Input rfl

/-- C7: code bug.  `execute_tool` is NOT total over model-supplied tool
invocations: `json.loads(tool_call.function.arguments)` runs before the
try block, so a malformed argument string raises `json.JSONDecodeError`
out of `execute_tool` — for a known tool and even for an unknown tool,
where the spec promises `\x7b"error": ...\x7d` without raising.  With
parseable arguments the promised behaviour does hold (unknown tool, and a
handler-level failure such as unpacking a non-mapping, both return the
error JSON). -/
theorem execute_tool_raises_on_malformed_arguments :
    execute_tool [c7Tool]
        { name := "get_medicine_info",
          arguments := .malformed "Expecting value: line 1 column 1 (char 0)" }
      = .error ⟨"Expecting value: line 1 column 1 (char 0)"⟩ ∧
    execute_tool [c7Tool]
        { name := "unknown_tool",
          arguments := .malformed "Expecting value: line 1 column 1 (char 0)" }
      = .error ⟨"Expecting value: line 1 column 1 (char 0)"⟩ ∧
    execute_tool [c7Tool] { name := "unknown_tool", arguments := .parsed (.vdict []) }
      = .ok (jsonStrObj "error" "Tool unknown_tool not found") ∧
    execute_tool [c7Tool] { name := "get_medicine_info", arguments := .parsed (.vint 3) }
      = .ok (jsonStrObj "error" "argument after ** must be a mapping") :=
  ⟨rfl, rfl, rfl, rfl⟩

/-- C8: code bug.  `log_action` is awaited INSIDE `process`'s try block,
so when the audit sink raises, the already-produced successful agent
result is discarded and the caller receives the converted
`ORCHESTRATION_ERROR` failure — the observability sink's failure fails
the enclosing request, contradicting the fire-and-forget contract.  The
conjuncts show: the dispatched agent returned `success=true` on the very
input `process` forwarded, yet the caller got `success=false`. -/
theorem log_sink_failure_discards_agent_result :
    c8Result.success = true ∧
    stubAgent c8Result ((process c8Env c8Input).2) = .ok c8Result ∧
    (process c8Env c8Input).1 = mkOrchErr 5 ⟨"structlog sink unavailable"⟩ ∧
    (process c8Env c8Input).1.success = false ∧
    (process c8Env c8Input).1.error_code = some "ORCHESTRATION_ERROR" :=
  ⟨rfl, rfl, rfl, rfl, rfl⟩

/-- C9 counterexample: `process` executes
`input_data.payload = merged_payload`, reassigning the caller's request
object's payload.  With original payload `\x7ba: 1\x7d` and decision context
`\x7bb: 2\x7d`, after the call the caller's request carries payload
`\x7ba: 1, b: 2\x7d` — the request envelope is NOT immutable per call. -/
theorem process_mutates_request_payload :
    c9Input.payload = [("a", .vint 1)] ∧
    (process c9Env c9Input).2.payload = [("a", .vint 1), ("b", .vint 2)] ∧
    (process c9Env c9Input).2.payload ≠ c9Input.payload := by
  refine ⟨rfl, rfl, ?_⟩
  have h2 : (process c9Env c9Input).2.payload = [("a", .vint 1), ("b", .vint 2)] := rfl
  rw [h2]
  intro hc
  exact absurd (congrArg List.length hc) (by decide)

/-- C9 amended: `process` forwards the augmented payload (routing context
merged in, with the decision context winning on key collision, per the
dictMerge lemmas in the conclusion) by reassigning the caller's request
object's `payload` field in place; every OTHER field of the caller's
request (user/conversation/session ids, message id, metadata) is
unchanged, and the payload is either untouched (when routing raised before
the merge) or equal to the original payload merged with some decision
context. -/
theorem process_mutates_only_payload (env : Env) (i : AgentInput) :
    ((process env i).2.user_id = i.user_id ∧
     (process env i).2.conversation_id = i.conversation_id ∧
     (process env i).2.session_id = i.session_id ∧
     (process env i).2.message_id = i.message_id ∧
     (process env i).2.metadata = i.metadata) ∧
    ((process env i).2.payload = i.payload ∨
      ∃ d, (process env i).2.payload = dictMerge i.payload d) ∧
    (∀ (p d : List (String × PyVal)) (k : String) (v : PyVal),
        (d.map Prod.fst).Nodup → dictLookup d k = some v →
        dictLookup (dictMerge p d) k = some v) ∧
    (∀ (p d : List (String × PyVal)) (k : String),
        dictLookup d k = none →
        dictLookup (dictMerge p d) k = dictLookup p k) := by
  refine ⟨?_, ?_, dictLookup_dictMerge_of_some, dictLookup_dictMerge_of_none⟩
  · rcases processBody_shape env i with ⟨e, hb⟩ | ⟨d, ⟨e, hb⟩ | ⟨t, rd, hb⟩ | ⟨r, rd, hb⟩⟩ <;>
      simp [process, hb, mutatedWith]
  · rcases processBody_shape env i with ⟨e, hb⟩ | ⟨d, ⟨e, hb⟩ | ⟨t, rd, hb⟩ | ⟨r, rd, hb⟩⟩
    · exact .inl (by simp [process, hb])
    · exact .inr ⟨d, by simp [process, hb, mutatedWith]⟩
    · exact .inr ⟨d, by simp [process, hb, mutatedWith]⟩
    · exact .inr ⟨d, by simp [process, hb, mutatedWith]⟩

/-- C9 amendment witness at the c9 fixture, with the merge-collision
lemmas instantiated concretely. -/
theorem process_mutates_only_payload_witness :
    ((process c9Env c9Input).2.message_id = c9Input.message_id ∧
     (process c9Env c9Input).2.metadata = c9Input.metadata) ∧
    ((process c9Env c9Input).2.payload = c9Input.payload ∨
      ∃ d, (process c9Env c9Input).2.payload = dictMerge c9Input.payload d) ∧
    dictLookup (dictMerge [("b", .vint 1)] [("b", .vint 2)]) "b" = some (.vint 2) ∧
    dictLookup (dictMerge [("a", .vint 1)] [("b", .vint 2)]) "a" = some (.vint 1) := by
  have h := process_mutates_only_payload c9Env c9Input
  exact ⟨⟨h.1.2.2.2.1, h.1.2.2.2.2⟩, h.2.1,
    h.2.2.1 [("b", .vint 1)] [("b", .vint 2)] "b" (.vint 2) (by simp) rfl,
    h.2.2.2 [("a", .vint 1)] [("b", .vint 2)] "a" rfl⟩

end PharmacyAI
